import Mathlib

/-
Formal model of the Multi-Device Event Correlation Engine implemented in
src/main.py of the seizureapi repository.

Modelling conventions:
* Database tables (`devices`, `device_data`, `seizure_events`) are lists of
  row structures; an SQL insert is an append at the end of the list, an SQL
  `fetch_one` is `List.find?`, a `fetch_all ... where P` is `List.filter P`.
* Python `datetime` values are modelled as integers (milliseconds since the
  epoch).  `datetime.utcfromtimestamp(timestamp_ms / 1000.0)` is strictly
  monotone and injective in `timestamp_ms`, so a stored timestamp is
  modelled by the integer `timestamp_ms` itself, and
  `timedelta(seconds=5)` is the integer `windowMs = 5000`.
* The two `datetime.utcnow()` calls inside one request (line 220 and
  line 239 of src/main.py) are modelled by the single evaluation instant
  `now` passed to the operation.
* Each `await database....` call can raise an infrastructure error in the
  Python code; this is modelled by an oracle `fail : StoreOp → Bool` that
  says which of the six store operations of one request fails.  A raised
  exception propagates out of the endpoint (there is no try/except in
  src/main.py); this is modelled by the `Except Err` result.  `noFail` is
  the oracle of an invocation in which every store call succeeds.
* The endpoint's only success value is the constant JSON object
  with status "ok" (line 244), modelled by `Resp.ok`.
* `list(set(...))` (line 227) is modelled by `List.dedup`; the claims only
  use the result through its membership, its length and its distinctness,
  which are independent of the element order chosen.
-/

namespace SeizureApi

/-- Row of the `devices` table (columns used by the correlation path). -/
structure DeviceRow where
  user_id : Nat
  device_id : String
deriving DecidableEq

/-- Row of the `device_data` table; `seizure_flag` is the only payload field
the correlation path reads back (line 226 of src/main.py). -/
structure TelemetryRow where
  device_id : String
  timestamp : Int
  seizure_flag : Bool
deriving DecidableEq

/-- Row of the `seizure_events` table: the persisted CorrelatedEvent.
`device_ids` is the comma-joined string written at line 240. -/
structure SeizureEventRow where
  user_id : Nat
  timestamp : Int
  device_ids : String
deriving DecidableEq

/-- Request body of POST /api/devices/data (class DevicePayload); the
opaque `sensors` dict is never interpreted by the engine and is omitted. -/
structure DevicePayload where
  device_id : String
  timestamp_ms : Int
  seizure_flag : Bool
deriving DecidableEq

/-- The database state visible to the correlation endpoint. -/
structure DB where
  devices : List DeviceRow
  device_data : List TelemetryRow
  seizure_events : List SeizureEventRow
deriving DecidableEq

/-- Errors the endpoint can surface: the 403 "Device not registered"
(line 205) and a propagated infrastructure error of a store call. -/
inductive Err where
  | UnknownDevice
  | StoreUnavailable
deriving DecidableEq

/-- The six `await database...` calls of one request, in program order. -/
inductive StoreOp where
  | fetchDevice
  | insertTelemetry
  | fetchUserDevices
  | fetchRecentRows
  | fetchRecentEvent
  | insertEvent
deriving DecidableEq

/-- Oracle of an invocation in which every store call succeeds. -/
def noFail : StoreOp → Bool := fun _ => false

/-- The success response of line 244 (the constant status-ok object). -/
inductive Resp where
  | ok
deriving DecidableEq

/-- `timedelta(seconds=5)` in the millisecond time model (line 220). -/
def windowMs : Int := 5000

/-- The quorum threshold hard-coded at line 229 (`>= 3`). -/
def quorumThreshold : Nat := 3

/-- Python's comma join on character lists. -/
def joinComma : List (List Char) → List Char
  | [] => []
  | [x] => x
  | x :: y :: xs => x ++ ',' :: joinComma (y :: xs)

/-- Python's comma split on character lists: splits at every comma and keeps
empty fields, so `splitComma []` is `[[]]` just as splitting the empty
string on a comma yields a single empty field in Python. -/
def splitComma : List Char → List (List Char)
  | [] => [[]]
  | c :: rest =>
    if c = ',' then [] :: splitComma rest
    else
      match splitComma rest with
      | [] => [[c]]
      | h :: t => (c :: h) :: t

/-- The comma join of device ids performed at line 240. -/
def commaJoin (l : List String) : String :=
  String.mk (joinComma (l.map String.data))

/-- The comma split of the stored `device_ids` column performed at
lines 283 and 299 (the event-listing reads). -/
def commaSplit (s : String) : List String :=
  (splitComma s.data).map String.mk

/-- Lines 218-219: the device ids of every device owned by `u`. -/
def device_ids_of (devs : List DeviceRow) (u : Nat) : List String :=
  (devs.filter (fun d => d.user_id == u)).map (fun d => d.device_id)

/-- Lines 221-225: the `device_data` rows of the user's devices with
`timestamp >= window_start`.  Note: the query has no upper bound on
`timestamp`. -/
def recent_rows (dd : List TelemetryRow) (ids : List String) (window_start : Int) :
    List TelemetryRow :=
  dd.filter (fun r => ids.contains r.device_id && decide (window_start ≤ r.timestamp))

/-- Line 226: ids of the rows whose payload carries `seizure_flag = true`. -/
def triggered_devices (rows : List TelemetryRow) : List String :=
  (rows.filter (fun r => r.seizure_flag)).map (fun r => r.device_id)

/-- Line 227: the deduplicated list of triggered device ids. -/
def unique_triggered (dd : List TelemetryRow) (ids : List String) (window_start : Int) :
    List String :=
  (triggered_devices (recent_rows dd ids window_start)).dedup

/-- The Correlation Window Evaluator of lines 218-227: the distinct devices
of user `u` with an abnormal-flagged row at or after `now - windowMs`. -/
def eval_for (db : DB) (u : Nat) (now : Int) : List String :=
  unique_triggered db.device_data (device_ids_of db.devices u) (now - windowMs)

/-- Lines 209-214: the telemetry insert performed for every accepted
submission (before any correlation logic runs). -/
def insertTelem (db : DB) (p : DevicePayload) : DB :=
  { db with
    device_data := db.device_data ++ [⟨p.device_id, p.timestamp_ms, p.seizure_flag⟩] }

/-- Lines 230-234: the Deduplicator query: first `seizure_events` row of the
user with `timestamp >= window_start` (again no upper bound). -/
def recent_event (evs : List SeizureEventRow) (u : Nat) (window_start : Int) :
    Option SeizureEventRow :=
  evs.find? (fun e => e.user_id == u && decide (window_start ≤ e.timestamp))

/-- The endpoint POST /api/devices/data (`receive_device_data`,
lines 201-244 of src/main.py), for one request evaluated at instant `now`,
with `fail` saying which store calls of this request raise.  Returns the
database state after the request together with the response
(`Except.error` = an HTTPException / propagated store exception). -/
def receive_device_data (fail : StoreOp → Bool) (db : DB) (now : Int) (p : DevicePayload) :
    DB × Except Err Resp :=
  if fail StoreOp.fetchDevice then (db, Except.error Err.StoreUnavailable) else
  match db.devices.find? (fun d => d.device_id == p.device_id) with
  | none => (db, Except.error Err.UnknownDevice)
  | some device_row =>
    if fail StoreOp.insertTelemetry then (db, Except.error Err.StoreUnavailable) else
    if p.seizure_flag then
      if fail StoreOp.fetchUserDevices then
        (insertTelem db p, Except.error Err.StoreUnavailable) else
      if fail StoreOp.fetchRecentRows then
        (insertTelem db p, Except.error Err.StoreUnavailable) else
      if quorumThreshold ≤ (eval_for (insertTelem db p) device_row.user_id now).length then
        if fail StoreOp.fetchRecentEvent then
          (insertTelem db p, Except.error Err.StoreUnavailable) else
        match recent_event (insertTelem db p).seizure_events device_row.user_id
            (now - windowMs) with
        | some _ => (insertTelem db p, Except.ok Resp.ok)
        | none =>
          if fail StoreOp.insertEvent then
            (insertTelem db p, Except.error Err.StoreUnavailable) else
          ({ insertTelem db p with
              seizure_events := (insertTelem db p).seizure_events ++
                [⟨device_row.user_id, now,
                  commaJoin (eval_for (insertTelem db p) device_row.user_id now)⟩] },
            Except.ok Resp.ok)
      else (insertTelem db p, Except.ok Resp.ok)
    else (insertTelem db p, Except.ok Resp.ok)

/-- A sequence of sequential invocations of the endpoint (all store calls
succeeding), threading the database state. -/
def runSteps (db : DB) (steps : List (Int × DevicePayload)) : DB :=
  steps.foldl (fun d s => (receive_device_data noFail d s.1 s.2).1) db

/-- Database states reachable from a state with empty telemetry and empty
event store by any interleaving of data submissions (with or without store
failures) and of the device-management endpoints (which only rewrite the
`devices` table). -/
inductive Reachable : DB → Prop where
  | init (devs : List DeviceRow) : Reachable ⟨devs, [], []⟩
  | recv {db : DB} (fail : StoreOp → Bool) (now : Int) (p : DevicePayload)
      (h : Reachable db) : Reachable (receive_device_data fail db now p).1
  | admin {db : DB} (devs : List DeviceRow) (h : Reachable db) :
      Reachable { db with devices := devs }

/-- Splitting distributes over a comma-free prefix. -/
theorem splitComma_append (x : List Char) (hx : ',' ∉ x) :
    ∀ (s h : List Char) (t : List (List Char)),
      splitComma s = h :: t → splitComma (x ++ s) = (x ++ h) :: t := by
  induction x with
  | nil => intro s h t hs; simpa using hs
  | cons c x ih =>
    intro s h t hs
    have hc : c ≠ ',' := by
      intro hcc
      exact hx (hcc ▸ List.mem_cons_self c x)
    have hx' : ',' ∉ x := fun hm => hx (List.mem_cons_of_mem c hm)
    have hrec := ih hx' s h t hs
    show splitComma (c :: (x ++ s)) = ((c :: x) ++ h) :: t
    rw [splitComma, if_neg hc, hrec]
    simp

/-- Round trip of the character-level comma join and split, for a nonempty
list of comma-free fields. -/
theorem splitComma_joinComma :
    ∀ l : List (List Char), l ≠ [] → (∀ x ∈ l, ',' ∉ x) →
      splitComma (joinComma l) = l := by
  intro l
  induction l with
  | nil => intro h; exact absurd rfl h
  | cons x l ih =>
    intro _ hno
    cases l with
    | nil =>
      have hx : ',' ∉ x := hno x (List.mem_cons_self x [])
      have h0 : splitComma ([] : List Char) = [] :: [] := rfl
      have := splitComma_append x hx [] [] [] h0
      simpa [joinComma] using this
    | cons y ys =>
      have hx : ',' ∉ x := hno x (List.mem_cons_self x (y :: ys))
      have hrec : splitComma (joinComma (y :: ys)) = y :: ys :=
        ih (by simp) (fun z hz => hno z (List.mem_cons_of_mem x hz))
      have hs : splitComma (',' :: joinComma (y :: ys)) = [] :: y :: ys := by
        rw [splitComma, if_pos rfl, hrec]
      have := splitComma_append x hx (',' :: joinComma (y :: ys)) [] (y :: ys) hs
      simpa [joinComma] using this

/-- The telemetry insert of lines 209-214 does not touch `seizure_events`. -/
theorem insertTelem_seizure_events (db : DB) (p : DevicePayload) :
    (insertTelem db p).seizure_events = db.seizure_events := rfl

/-- Case analysis of one invocation: either the event store is unchanged, or
the device resolved, the flag was set, quorum was met, no recent event of
the owner existed, and exactly the one new event was appended. -/
theorem receive_events_cases (fail : StoreOp → Bool) (db : DB) (now : Int)
    (p : DevicePayload) :
    (receive_device_data fail db now p).1.seizure_events = db.seizure_events ∨
    (∃ dr, db.devices.find? (fun d => d.device_id == p.device_id) = some dr ∧
      p.seizure_flag = true ∧
      quorumThreshold ≤ (eval_for (insertTelem db p) dr.user_id now).length ∧
      recent_event db.seizure_events dr.user_id (now - windowMs) = none ∧
      (receive_device_data fail db now p).1.seizure_events =
        db.seizure_events ++
          [⟨dr.user_id, now, commaJoin (eval_for (insertTelem db p) dr.user_id now)⟩]) := by
  unfold receive_device_data
  split
  · left; rfl
  split
  · left; rfl
  next dr hfind =>
    split
    · left; rfl
    split
    · split
      · left; exact insertTelem_seizure_events db p
      split
      · left; exact insertTelem_seizure_events db p
      split
      · split
        · left; exact insertTelem_seizure_events db p
        split
        · left; exact insertTelem_seizure_events db p
        next hrec =>
          split
          · left; exact insertTelem_seizure_events db p
          · right
            refine ⟨dr, hfind, ?_, ?_, ?_, ?_⟩
            · assumption
            · assumption
            · exact hrec
            · rfl
      · left; exact insertTelem_seizure_events db p
    · left; exact insertTelem_seizure_events db p

/-- Every invocation either propagates `StoreUnavailable` or behaves exactly
as the failure-free invocation: a store failure is never converted into a
normal outcome. -/
theorem receive_fail_or_agrees (fail : StoreOp → Bool) (db : DB) (now : Int)
    (p : DevicePayload) :
    (receive_device_data fail db now p).2 = Except.error Err.StoreUnavailable ∨
    receive_device_data fail db now p = receive_device_data noFail db now p := by
  by_cases h1 : fail StoreOp.fetchDevice = true
  · left; simp [receive_device_data, h1]
  cases hfind : db.devices.find? (fun d => d.device_id == p.device_id) with
  | none => right; simp [receive_device_data, h1, hfind, noFail]
  | some dr =>
    by_cases h2 : fail StoreOp.insertTelemetry = true
    · left; simp [receive_device_data, h1, h2, hfind]
    by_cases hflag : p.seizure_flag = true
    · by_cases h3 : fail StoreOp.fetchUserDevices = true
      · left; simp [receive_device_data, h1, h2, h3, hfind, hflag]
      by_cases h4 : fail StoreOp.fetchRecentRows = true
      · left; simp [receive_device_data, h1, h2, h3, h4, hfind, hflag]
      by_cases hq : quorumThreshold ≤ (eval_for (insertTelem db p) dr.user_id now).length
      · by_cases h5 : fail StoreOp.fetchRecentEvent = true
        · left; simp [receive_device_data, h1, h2, h3, h4, h5, hfind, hflag, hq]
        cases hrec : recent_event (insertTelem db p).seizure_events dr.user_id
            (now - windowMs) with
        | some e =>
          right
          simp [receive_device_data, h1, h2, h3, h4, h5, hfind, hflag, hq, hrec, noFail]
        | none =>
          by_cases h6 : fail StoreOp.insertEvent = true
          · left
            simp [receive_device_data, h1, h2, h3, h4, h5, h6, hfind, hflag, hq, hrec]
          · right
            simp [receive_device_data, h1, h2, h3, h4, h5, h6, hfind, hflag, hq, hrec, noFail]
      · right
        simp [receive_device_data, h1, h2, h3, h4, hfind, hflag, hq, noFail]
    · right
      simp [receive_device_data, h1, h2, hfind, hflag, noFail]

/-- If quorum is met but a recent event of the owner exists at or after
`now - windowMs`, the invocation returns success without writing. -/
theorem receive_suppressed (db : DB) (now : Int) (p : DevicePayload) (dr : DeviceRow)
    (hfind : db.devices.find? (fun d => d.device_id == p.device_id) = some dr)
    (hflag : p.seizure_flag = true)
    (hq : quorumThreshold ≤ (eval_for (insertTelem db p) dr.user_id now).length)
    (e : SeizureEventRow) (he : e ∈ db.seizure_events) (hu : e.user_id = dr.user_id)
    (hlow : now - windowMs ≤ e.timestamp) :
    receive_device_data noFail db now p = (insertTelem db p, Except.ok Resp.ok) := by
  have hrec : recent_event (insertTelem db p).seizure_events dr.user_id
      (now - windowMs) ≠ none := by
    intro hnone
    unfold recent_event at hnone
    rw [List.find?_eq_none] at hnone
    have := hnone e he
    simp [hu, hlow] at this
  cases hrec2 : recent_event (insertTelem db p).seizure_events dr.user_id
      (now - windowMs) with
  | none => exact absurd hrec2 hrec
  | some ev =>
    simp [receive_device_data, hfind, hflag, hq, hrec2, noFail]

/-- The Confirmed path: with the device resolved, the flag set, quorum met
and no recent event of the owner, exactly one new event is appended and the
response is success. -/
theorem receive_writes (db : DB) (now : Int) (p : DevicePayload) (dr : DeviceRow)
    (hfind : db.devices.find? (fun d => d.device_id == p.device_id) = some dr)
    (hflag : p.seizure_flag = true)
    (hq : quorumThreshold ≤ (eval_for (insertTelem db p) dr.user_id now).length)
    (hrec : recent_event db.seizure_events dr.user_id (now - windowMs) = none) :
    (receive_device_data noFail db now p).1.seizure_events =
      db.seizure_events ++
        [⟨dr.user_id, now, commaJoin (eval_for (insertTelem db p) dr.user_id now)⟩] ∧
    (receive_device_data noFail db now p).2 = Except.ok Resp.ok := by
  have hrec' : recent_event (insertTelem db p).seizure_events dr.user_id
      (now - windowMs) = none := hrec
  unfold receive_device_data
  simp only [noFail, Bool.false_eq_true, if_false, hfind]
  rw [if_pos hflag, if_pos hq, hrec']
  exact ⟨rfl, rfl⟩

/-- Unfolding one step of a run. -/
theorem runSteps_cons (db : DB) (s : Int × DevicePayload) (rest : List (Int × DevicePayload)) :
    runSteps db (s :: rest) = runSteps (receive_device_data noFail db s.1 s.2).1 rest := rfl

/-- If at every step of a run the evaluated distinct abnormal device set of
the triggering owner `u` stays below the quorum threshold, the run writes no
event for `u`. -/
theorem no_write_below_quorum (db0 : DB) (steps : List (Int × DevicePayload)) (u : Nat)
    (H : ∀ l1 now p l2 dr, steps = l1 ++ (now, p) :: l2 →
      (runSteps db0 l1).devices.find? (fun d => d.device_id == p.device_id) = some dr →
      dr.user_id = u → p.seizure_flag = true →
      (eval_for (insertTelem (runSteps db0 l1) p) dr.user_id now).length < quorumThreshold) :
    (runSteps db0 steps).seizure_events.filter (fun e => e.user_id == u) =
      db0.seizure_events.filter (fun e => e.user_id == u) := by
  induction steps generalizing db0 with
  | nil => rfl
  | cons s rest ih =>
    obtain ⟨n, pp⟩ := s
    have h1 : (receive_device_data noFail db0 n pp).1.seizure_events.filter
        (fun e => e.user_id == u) = db0.seizure_events.filter (fun e => e.user_id == u) := by
      rcases receive_events_cases noFail db0 n pp with heq | ⟨dr, hfind, hflag, hq, hrec, happ⟩
      · rw [heq]
      · by_cases hu : dr.user_id = u
        · have hlt := H [] n pp rest dr rfl hfind hu hflag
          have hlt' : (eval_for (insertTelem db0 pp) dr.user_id n).length <
              quorumThreshold := hlt
          omega
        · rw [happ, List.filter_append]
          have : (List.filter (fun e => e.user_id == u)
              [(⟨dr.user_id, n, commaJoin (eval_for (insertTelem db0 pp) dr.user_id n)⟩ :
                SeizureEventRow)]) = [] := by
            simp [List.filter_cons, List.filter_nil, beq_iff_eq, hu]
          rw [this, List.append_nil]
    have H' : ∀ l1 now p l2 dr, rest = l1 ++ (now, p) :: l2 →
        (runSteps (receive_device_data noFail db0 n pp).1 l1).devices.find?
          (fun d => d.device_id == p.device_id) = some dr →
        dr.user_id = u → p.seizure_flag = true →
        (eval_for (insertTelem (runSteps (receive_device_data noFail db0 n pp).1 l1) p)
          dr.user_id now).length < quorumThreshold := by
      intro l1 now p l2 dr hsteps hfind hu hflag
      exact H ((n, pp) :: l1) now p l2 dr (by rw [hsteps]; rfl) hfind hu hflag
    rw [runSteps_cons]
    rw [ih _ H']
    exact h1

/-- Membership in the evaluator's output: `d` is evaluated for user `u` at
instant `now` iff `d` is one of `u`'s devices and has an abnormal-flagged
row with `timestamp` at or after `now - windowMs` (no upper bound). -/
theorem mem_eval_for (db : DB) (u : Nat) (now : Int) (d : String) :
    d ∈ eval_for db u now ↔
      (∃ dev ∈ db.devices, dev.user_id = u ∧ dev.device_id = d) ∧
      (∃ r ∈ db.device_data, r.device_id = d ∧ r.seizure_flag = true ∧
        now - windowMs ≤ r.timestamp) := by
  unfold eval_for unique_triggered triggered_devices recent_rows device_ids_of
  simp only [List.mem_dedup, List.mem_map, List.mem_filter, Bool.and_eq_true,
    decide_eq_true_eq, beq_iff_eq, List.contains_iff_exists_mem_beq]
  constructor
  · rintro ⟨r, ⟨⟨hr, ⟨did, hdid, hbeq⟩, hts⟩, hflag⟩, rfl⟩
    obtain ⟨dev, ⟨hdev, hdevu⟩, hdevd⟩ := hdid
    exact ⟨⟨dev, hdev, hdevu, by rw [hdevd, ← hbeq]⟩, ⟨r, hr, rfl, hflag, hts⟩⟩
  · rintro ⟨⟨dev, hdev, hdevu, rfl⟩, ⟨r, hr, hrd, hflag, hts⟩⟩
    exact ⟨r, ⟨⟨hr, ⟨dev.device_id, ⟨dev, ⟨hdev, hdevu⟩, rfl⟩, hrd⟩, hts⟩, hflag⟩, hrd⟩

/-- The evaluator's output has no duplicate device ids. -/
theorem eval_for_nodup (db : DB) (u : Nat) (now : Int) : (eval_for db u now).Nodup :=
  List.nodup_dedup _

/-- A failing telemetry-store query during evaluation propagates the error. -/
theorem receive_eval_failure (fail : StoreOp → Bool) (db : DB) (now : Int)
    (p : DevicePayload) (dr : DeviceRow)
    (hfind : db.devices.find? (fun d => d.device_id == p.device_id) = some dr)
    (hflag : p.seizure_flag = true)
    (h1 : fail StoreOp.fetchDevice = false) (h2 : fail StoreOp.insertTelemetry = false)
    (h3 : fail StoreOp.fetchUserDevices = false) (h4 : fail StoreOp.fetchRecentRows = true) :
    receive_device_data fail db now p = (insertTelem db p, Except.error Err.StoreUnavailable) := by
  simp [receive_device_data, h1, h2, h3, h4, hfind, hflag]

/-- A failing event-store query during the dedup check propagates the
error. -/
theorem receive_dedup_failure (fail : StoreOp → Bool) (db : DB) (now : Int)
    (p : DevicePayload) (dr : DeviceRow)
    (hfind : db.devices.find? (fun d => d.device_id == p.device_id) = some dr)
    (hflag : p.seizure_flag = true)
    (hq : quorumThreshold ≤ (eval_for (insertTelem db p) dr.user_id now).length)
    (h1 : fail StoreOp.fetchDevice = false) (h2 : fail StoreOp.insertTelemetry = false)
    (h3 : fail StoreOp.fetchUserDevices = false) (h4 : fail StoreOp.fetchRecentRows = false)
    (h5 : fail StoreOp.fetchRecentEvent = true) :
    receive_device_data fail db now p = (insertTelem db p, Except.error Err.StoreUnavailable) := by
  unfold receive_device_data
  simp only [h1, h2, h3, h4, h5, Bool.false_eq_true, if_false, if_true, hfind]
  rw [if_pos hflag, if_pos hq]

/-- C1 counterexample: the claim says an abnormal event with `observedAt`
strictly above `now` does not count, but the implemented query at
lines 221-225 has no upper bound: with `now = 0`, the single abnormal event
of device d1 at `observedAt = 1 > now` places d1 in the evaluated set even
though d1 has no abnormal event inside the closed interval
`[now - W, now]`. -/
theorem C1_counterexample :
    "d1" ∈ eval_for (insertTelem (⟨[⟨1, "d1"⟩], [], []⟩ : DB) ⟨"d1", 1, true⟩) 1 0 ∧
    ¬ ∃ r ∈ (insertTelem (⟨[⟨1, "d1"⟩], [], []⟩ : DB) ⟨"d1", 1, true⟩).device_data,
        r.device_id = "d1" ∧ r.seizure_flag = true ∧
        (0 : Int) - windowMs ≤ r.timestamp ∧ r.timestamp ≤ (0 : Int) := by decide

/-- C1 (amended): the evaluated distinct abnormal device set contains
exactly the devices owned by the user that have an abnormal-flagged
telemetry event with `observedAt ≥ now - W` (inclusive lower bound: an
event at exactly `now - W` counts, one strictly below does not), with no
upper bound at `now`; duplicate abnormal reports from the same device count
once (the set is duplicate-free). -/
theorem C1_amended_window_membership (db : DB) (u : Nat) (now : Int) (d : String) :
    (d ∈ eval_for db u now ↔
      (∃ dev ∈ db.devices, dev.user_id = u ∧ dev.device_id = d) ∧
      (∃ r ∈ db.device_data, r.device_id = d ∧ r.seizure_flag = true ∧
        now - windowMs ≤ r.timestamp)) ∧
    (eval_for db u now).Nodup :=
  ⟨mem_eval_for db u now d, eval_for_nodup db u now⟩

/-- C1 witness: a device whose only abnormal event sits exactly at the
lower bound `now - W` is evaluated, by the amended theorem. -/
theorem C1_witness :
    "d2" ∈ eval_for (⟨[⟨1, "d2"⟩], [⟨"d2", -5000, true⟩], []⟩ : DB) 1 0 :=
  (C1_amended_window_membership (⟨[⟨1, "d2"⟩], [⟨"d2", -5000, true⟩], []⟩ : DB) 1 0
    "d2").1.mpr (by decide)

/-- C2 counterexample: a CorrelatedEvent is written (the event store
changes) although only one distinct device has an abnormal-flagged event
with `observedAt` inside `[now - W, now]`: devices d2 and d3 contribute
with future-stamped events, because the implemented window has no upper
bound. -/
theorem C2_counterexample :
    ((receive_device_data noFail
        (⟨[⟨1, "d1"⟩, ⟨1, "d2"⟩, ⟨1, "d3"⟩],
          [⟨"d2", 1000, true⟩, ⟨"d3", 2000, true⟩], []⟩ : DB) 0
        ⟨"d1", 0, true⟩).1.seizure_events ≠
      (⟨[⟨1, "d1"⟩, ⟨1, "d2"⟩, ⟨1, "d3"⟩],
        [⟨"d2", 1000, true⟩, ⟨"d3", 2000, true⟩], []⟩ : DB).seizure_events) ∧
    ((((insertTelem
        (⟨[⟨1, "d1"⟩, ⟨1, "d2"⟩, ⟨1, "d3"⟩],
          [⟨"d2", 1000, true⟩, ⟨"d3", 2000, true⟩], []⟩ : DB)
        ⟨"d1", 0, true⟩).device_data.filter
          (fun r => r.seizure_flag && decide ((0 : Int) - windowMs ≤ r.timestamp) &&
            decide (r.timestamp ≤ (0 : Int)))).map
        (fun r => r.device_id)).dedup.length < quorumThreshold) := by decide

/-- C2 (amended): a correlated event can be written only if the evaluator's
distinct abnormal device set (devices with an abnormal-flagged event with
`observedAt ≥ now - W`; the implemented trailing window has no upper bound)
has size at least the quorum threshold Q = 3, duplicates counted once; and
for every user for whom the evaluated distinct set stays below Q at every
invocation of a run, no correlated event is ever written for that user. -/
theorem C2_quorum_gate :
    (∀ (db : DB) (now : Int) (p : DevicePayload),
      (receive_device_data noFail db now p).1.seizure_events ≠ db.seizure_events →
      ∃ dr, db.devices.find? (fun d => d.device_id == p.device_id) = some dr ∧
        p.seizure_flag = true ∧
        quorumThreshold ≤ (eval_for (insertTelem db p) dr.user_id now).length) ∧
    (∀ (db0 : DB) (steps : List (Int × DevicePayload)) (u : Nat),
      (∀ l1 now p l2 dr, steps = l1 ++ (now, p) :: l2 →
        (runSteps db0 l1).devices.find? (fun d => d.device_id == p.device_id) = some dr →
        dr.user_id = u → p.seizure_flag = true →
        (eval_for (insertTelem (runSteps db0 l1) p) dr.user_id now).length < quorumThreshold) →
      (runSteps db0 steps).seizure_events.filter (fun e => e.user_id == u) =
        db0.seizure_events.filter (fun e => e.user_id == u)) := by
  constructor
  · intro db now p hne
    rcases receive_events_cases noFail db now p with heq | ⟨dr, hfind, hflag, hq, _, _⟩
    · exact absurd heq hne
    · exact ⟨dr, hfind, hflag, hq⟩
  · exact no_write_below_quorum

/-- C2 witness: the gate applied to a writing invocation (three distinct
abnormal devices), and the run-level statement applied to a one-step run of
a user with a single abnormal device (below quorum, so no event). -/
theorem C2_witness :
    (∃ dr, (⟨[⟨1, "d1"⟩, ⟨1, "d2"⟩, ⟨1, "d3"⟩],
        [⟨"d2", 0, true⟩, ⟨"d3", 0, true⟩], []⟩ : DB).devices.find?
        (fun d => d.device_id == (⟨"d1", 0, true⟩ : DevicePayload).device_id) = some dr ∧
      (⟨"d1", 0, true⟩ : DevicePayload).seizure_flag = true ∧
      quorumThreshold ≤ (eval_for (insertTelem
        (⟨[⟨1, "d1"⟩, ⟨1, "d2"⟩, ⟨1, "d3"⟩],
          [⟨"d2", 0, true⟩, ⟨"d3", 0, true⟩], []⟩ : DB) ⟨"d1", 0, true⟩)
        dr.user_id 0).length) ∧
    (runSteps (⟨[⟨7, "e1"⟩], [], []⟩ : DB) [(0, ⟨"e1", 0, true⟩)]).seizure_events.filter
        (fun e => e.user_id == 7) =
      (⟨[⟨7, "e1"⟩], [], []⟩ : DB).seizure_events.filter (fun e => e.user_id == 7) := by
  constructor
  · exact C2_quorum_gate.1 _ 0 _ (by decide)
  · refine C2_quorum_gate.2 _ _ 7 ?_
    intro l1 now p l2 dr hsteps hfind hu hflag
    cases l1 with
    | nil =>
      simp only [List.nil_append, List.cons.injEq, Prod.mk.injEq] at hsteps
      obtain ⟨⟨hnow, hp⟩, hl2⟩ := hsteps
      subst hnow; subst hp
      have hdr : dr = ⟨7, "e1"⟩ := by
        simp only [runSteps, List.foldl_nil] at hfind
        simpa using hfind.symm
      subst hdr
      decide
    | cons a l1' =>
      simp at hsteps

/-- C3: if quorum is met at `now` and the event store already holds a
CorrelatedEvent of the same user with `triggeredAt` inside
`[now - W, now]`, the invocation is suppressed: it succeeds (storing only
the telemetry row) and writes no new CorrelatedEvent.  The dedup window is
measured from the invocation's own `now` (sliding cooldown), so in
particular the event written by a Confirmed result at `t0` suppresses every
later quorum-met invocation with `now ≤ t0 + W`. -/
theorem C3_suppressed_duplicate (db : DB) (now : Int) (p : DevicePayload) (dr : DeviceRow)
    (hfind : db.devices.find? (fun d => d.device_id == p.device_id) = some dr)
    (hflag : p.seizure_flag = true)
    (hq : quorumThreshold ≤ (eval_for (insertTelem db p) dr.user_id now).length)
    (hdup : ∃ e ∈ db.seizure_events, e.user_id = dr.user_id ∧
      now - windowMs ≤ e.timestamp ∧ e.timestamp ≤ now) :
    receive_device_data noFail db now p = (insertTelem db p, Except.ok Resp.ok) ∧
    (receive_device_data noFail db now p).1.seizure_events = db.seizure_events := by
  obtain ⟨e, he, hu, hlow, _⟩ := hdup
  have h := receive_suppressed db now p dr hfind hflag hq e he hu hlow
  exact ⟨h, by rw [h]; rfl⟩

/-- C3 witness: with an existing event of user 1 at timestamp -100 and a
quorum-met submission at `now = 1`, the call stores only the telemetry row
and leaves the event store unchanged. -/
theorem C3_witness :
    receive_device_data noFail
        (⟨[⟨1, "d1"⟩, ⟨1, "d2"⟩, ⟨1, "d3"⟩], [⟨"d2", 0, true⟩, ⟨"d3", 0, true⟩],
          [⟨1, -100, "x"⟩]⟩ : DB) 1 ⟨"d1", 0, true⟩ =
      (insertTelem (⟨[⟨1, "d1"⟩, ⟨1, "d2"⟩, ⟨1, "d3"⟩],
        [⟨"d2", 0, true⟩, ⟨"d3", 0, true⟩], [⟨1, -100, "x"⟩]⟩ : DB) ⟨"d1", 0, true⟩,
        Except.ok Resp.ok) ∧
    (receive_device_data noFail
        (⟨[⟨1, "d1"⟩, ⟨1, "d2"⟩, ⟨1, "d3"⟩], [⟨"d2", 0, true⟩, ⟨"d3", 0, true⟩],
          [⟨1, -100, "x"⟩]⟩ : DB) 1 ⟨"d1", 0, true⟩).1.seizure_events =
      (⟨[⟨1, "d1"⟩, ⟨1, "d2"⟩, ⟨1, "d3"⟩], [⟨"d2", 0, true⟩, ⟨"d3", 0, true⟩],
        [⟨1, -100, "x"⟩]⟩ : DB).seizure_events :=
  C3_suppressed_duplicate _ 1 _ ⟨1, "d1"⟩ (by decide) (by decide) (by decide) (by decide)

/-- C4: in every database state reachable by sequential invocations from a
state with an empty event store, any two CorrelatedEvents of the same user
are strictly more than the window length apart: in list (write) order, the
later `triggeredAt` exceeds the earlier by more than `windowMs`.  In
particular no two are closer together than the window length. -/
theorem C4_dedup_invariant (db : DB) (h : Reachable db) :
    db.seizure_events.Pairwise
      (fun a b => a.user_id = b.user_id → a.timestamp + windowMs < b.timestamp) := by
  induction h with
  | init devs => exact List.Pairwise.nil
  | admin devs h ih => exact ih
  | recv fail now p h ih =>
    rcases receive_events_cases fail _ now p with heq | ⟨dr, hfind, hflag, hq, hrec, happ⟩
    · rw [heq]; exact ih
    · rw [happ]
      rw [List.pairwise_append]
      refine ⟨ih, List.pairwise_singleton _ _, ?_⟩
      intro a ha b hb
      simp only [List.mem_singleton] at hb
      subst hb
      intro huser
      unfold recent_event at hrec
      rw [List.find?_eq_none] at hrec
      have := hrec a ha
      simp only [Bool.and_eq_true, beq_iff_eq, decide_eq_true_eq, not_and] at this
      have hlt := this huser
      simp only []
      omega

/-- C4 witness: the invariant evaluated on the state reached by three
submissions (the third of which writes a CorrelatedEvent) from an empty
store. -/
theorem C4_witness :
    ((receive_device_data noFail
      (receive_device_data noFail
        (receive_device_data noFail (⟨[⟨1, "d1"⟩, ⟨1, "d2"⟩, ⟨1, "d3"⟩], [], []⟩ : DB)
          0 ⟨"d2", 0, true⟩).1
        0 ⟨"d3", 0, true⟩).1
      0 ⟨"d1", 0, true⟩).1).seizure_events.Pairwise
      (fun a b => a.user_id = b.user_id → a.timestamp + windowMs < b.timestamp) :=
  C4_dedup_invariant _
    (Reachable.recv noFail 0 ⟨"d1", 0, true⟩
      (Reachable.recv noFail 0 ⟨"d3", 0, true⟩
        (Reachable.recv noFail 0 ⟨"d2", 0, true⟩
          (Reachable.init [⟨1, "d1"⟩, ⟨1, "d2"⟩, ⟨1, "d3"⟩]))))

/-- C5: on the Confirmed path (device resolved, abnormal flag, quorum met,
no recent event of the owner) exactly one CorrelatedEvent is appended to
the event store, with `user_id` the triggering device's owner,
`timestamp` (triggeredAt) the engine's evaluation instant `now` — not any
device's `observedAt` — and `device_ids` the comma-join of the distinct
abnormal device set computed by the evaluator, whose size is at least the
quorum threshold. -/
theorem C5_confirmed_write (db : DB) (now : Int) (p : DevicePayload) (dr : DeviceRow)
    (hfind : db.devices.find? (fun d => d.device_id == p.device_id) = some dr)
    (hflag : p.seizure_flag = true)
    (hq : quorumThreshold ≤ (eval_for (insertTelem db p) dr.user_id now).length)
    (hrec : recent_event db.seizure_events dr.user_id (now - windowMs) = none) :
    (receive_device_data noFail db now p).1.seizure_events =
      db.seizure_events ++
        [⟨dr.user_id, now, commaJoin (eval_for (insertTelem db p) dr.user_id now)⟩] ∧
    (receive_device_data noFail db now p).2 = Except.ok Resp.ok ∧
    quorumThreshold ≤ (eval_for (insertTelem db p) dr.user_id now).length := by
  obtain ⟨h1, h2⟩ := receive_writes db now p dr hfind hflag hq hrec
  exact ⟨h1, h2, hq⟩

/-- C5 witness: a concrete Confirmed invocation appending exactly one event
for the owner at the evaluation instant. -/
theorem C5_witness :
    (receive_device_data noFail
        (⟨[⟨1, "d1"⟩, ⟨1, "d2"⟩, ⟨1, "d3"⟩], [⟨"d2", 0, true⟩, ⟨"d3", 0, true⟩], []⟩ : DB)
        0 ⟨"d1", 0, true⟩).1.seizure_events =
      [] ++ [⟨(⟨1, "d1"⟩ : DeviceRow).user_id, 0,
        commaJoin (eval_for (insertTelem
          (⟨[⟨1, "d1"⟩, ⟨1, "d2"⟩, ⟨1, "d3"⟩], [⟨"d2", 0, true⟩, ⟨"d3", 0, true⟩], []⟩ : DB)
          ⟨"d1", 0, true⟩) (⟨1, "d1"⟩ : DeviceRow).user_id 0)⟩] ∧
    (receive_device_data noFail
        (⟨[⟨1, "d1"⟩, ⟨1, "d2"⟩, ⟨1, "d3"⟩], [⟨"d2", 0, true⟩, ⟨"d3", 0, true⟩], []⟩ : DB)
        0 ⟨"d1", 0, true⟩).2 = Except.ok Resp.ok ∧
    quorumThreshold ≤ (eval_for (insertTelem
        (⟨[⟨1, "d1"⟩, ⟨1, "d2"⟩, ⟨1, "d3"⟩], [⟨"d2", 0, true⟩, ⟨"d3", 0, true⟩], []⟩ : DB)
        ⟨"d1", 0, true⟩) (⟨1, "d1"⟩ : DeviceRow).user_id 0).length :=
  C5_confirmed_write _ 0 _ ⟨1, "d1"⟩ (by decide) (by decide) (by decide) (by decide)

/-- C7: store failures are propagated, never converted into a normal
outcome.  First conjunct: every invocation either returns the
`StoreUnavailable` error or agrees exactly with the failure-free
invocation.  Second and third conjuncts: a failure of the telemetry-store
query during evaluation, or of the event-store query during the dedup
check, reached on an abnormal submission of a registered device, makes the
operation return `StoreUnavailable`. -/
theorem C7_store_failure_propagation :
    (∀ (fail : StoreOp → Bool) (db : DB) (now : Int) (p : DevicePayload),
      (receive_device_data fail db now p).2 = Except.error Err.StoreUnavailable ∨
      receive_device_data fail db now p = receive_device_data noFail db now p) ∧
    (∀ (fail : StoreOp → Bool) (db : DB) (now : Int) (p : DevicePayload) (dr : DeviceRow),
      db.devices.find? (fun d => d.device_id == p.device_id) = some dr →
      p.seizure_flag = true →
      fail StoreOp.fetchDevice = false → fail StoreOp.insertTelemetry = false →
      fail StoreOp.fetchUserDevices = false → fail StoreOp.fetchRecentRows = true →
      receive_device_data fail db now p =
        (insertTelem db p, Except.error Err.StoreUnavailable)) ∧
    (∀ (fail : StoreOp → Bool) (db : DB) (now : Int) (p : DevicePayload) (dr : DeviceRow),
      db.devices.find? (fun d => d.device_id == p.device_id) = some dr →
      p.seizure_flag = true →
      quorumThreshold ≤ (eval_for (insertTelem db p) dr.user_id now).length →
      fail StoreOp.fetchDevice = false → fail StoreOp.insertTelemetry = false →
      fail StoreOp.fetchUserDevices = false → fail StoreOp.fetchRecentRows = false →
      fail StoreOp.fetchRecentEvent = true →
      receive_device_data fail db now p =
        (insertTelem db p, Except.error Err.StoreUnavailable)) := by
  refine ⟨receive_fail_or_agrees, ?_, ?_⟩
  · intro fail db now p dr hfind hflag h1 h2 h3 h4
    exact receive_eval_failure fail db now p dr hfind hflag h1 h2 h3 h4
  · intro fail db now p dr hfind hflag hq h1 h2 h3 h4 h5
    exact receive_dedup_failure fail db now p dr hfind hflag hq h1 h2 h3 h4 h5

/-- C7 witness: a failing evaluation query, and a failing dedup-check
query, both surface `StoreUnavailable` on concrete inputs. -/
theorem C7_witness :
    receive_device_data (fun op => decide (op = StoreOp.fetchRecentRows))
        (⟨[⟨1, "d1"⟩], [], []⟩ : DB) 0 ⟨"d1", 0, true⟩ =
      (insertTelem (⟨[⟨1, "d1"⟩], [], []⟩ : DB) ⟨"d1", 0, true⟩,
        Except.error Err.StoreUnavailable) ∧
    receive_device_data (fun op => decide (op = StoreOp.fetchRecentEvent))
        (⟨[⟨1, "d1"⟩, ⟨1, "d2"⟩, ⟨1, "d3"⟩], [⟨"d2", 0, true⟩, ⟨"d3", 0, true⟩], []⟩ : DB)
        0 ⟨"d1", 0, true⟩ =
      (insertTelem
        (⟨[⟨1, "d1"⟩, ⟨1, "d2"⟩, ⟨1, "d3"⟩], [⟨"d2", 0, true⟩, ⟨"d3", 0, true⟩], []⟩ : DB)
        ⟨"d1", 0, true⟩, Except.error Err.StoreUnavailable) :=
  ⟨C7_store_failure_propagation.2.1 _ _ 0 _ ⟨1, "d1"⟩ (by decide) (by decide)
      (by decide) (by decide) (by decide) (by decide),
    C7_store_failure_propagation.2.2 _ _ 0 _ ⟨1, "d1"⟩ (by decide) (by decide)
      (by decide) (by decide) (by decide) (by decide) (by decide) (by decide)⟩

/-- C8: a submission whose device id does not resolve to a registered
device fails with the UnknownDevice error (the 403 of line 205) and leaves
the whole database state unchanged: no telemetry row and no CorrelatedEvent
is written. -/
theorem C8_unknown_device (db : DB) (now : Int) (p : DevicePayload)
    (hfind : db.devices.find? (fun d => d.device_id == p.device_id) = none) :
    receive_device_data noFail db now p = (db, Except.error Err.UnknownDevice) := by
  simp [receive_device_data, hfind, noFail]

/-- C8 witness: an unregistered device id is rejected with the state
untouched. -/
theorem C8_witness :
    receive_device_data noFail (⟨[⟨1, "d1"⟩], [], []⟩ : DB) 0 ⟨"nope", 5, true⟩ =
      ((⟨[⟨1, "d1"⟩], [], []⟩ : DB), Except.error Err.UnknownDevice) :=
  C8_unknown_device _ 0 _ (by decide)

/-- C9: every submission for a registered device that completes without a
store failure returns the same success response, whatever the correlation
outcome was (confirmed, suppressed, or below quorum): the outcome is not
observable in the return value. -/
theorem C9_uniform_response (db : DB) (now : Int) (p : DevicePayload) (dr : DeviceRow)
    (hfind : db.devices.find? (fun d => d.device_id == p.device_id) = some dr) :
    (receive_device_data noFail db now p).2 = Except.ok Resp.ok := by
  unfold receive_device_data
  simp only [noFail, Bool.false_eq_true, if_false, hfind]
  split
  · split
    · split
      · rfl
      · rfl
    · rfl
  · rfl

/-- C9 witness: the same success response on a confirming invocation, on a
suppressed one, and on a non-abnormal one. -/
theorem C9_witness :
    (receive_device_data noFail
        (⟨[⟨1, "d1"⟩, ⟨1, "d2"⟩, ⟨1, "d3"⟩], [⟨"d2", 0, true⟩, ⟨"d3", 0, true⟩], []⟩ : DB)
        0 ⟨"d1", 0, true⟩).2 = Except.ok Resp.ok ∧
    (receive_device_data noFail
        (⟨[⟨1, "d1"⟩, ⟨1, "d2"⟩, ⟨1, "d3"⟩], [⟨"d2", 0, true⟩, ⟨"d3", 0, true⟩],
          [⟨1, 0, "x"⟩]⟩ : DB) 0 ⟨"d1", 0, true⟩).2 = Except.ok Resp.ok ∧
    (receive_device_data noFail (⟨[⟨1, "d1"⟩], [], []⟩ : DB) 0 ⟨"d1", 0, false⟩).2 =
      Except.ok Resp.ok :=
  ⟨C9_uniform_response _ 0 _ ⟨1, "d1"⟩ (by decide),
    C9_uniform_response _ 0 _ ⟨1, "d1"⟩ (by decide),
    C9_uniform_response _ 0 _ ⟨1, "d1"⟩ (by decide)⟩

/-- C10 counterexample: the claim quantifies over every set of comma-free
ids, but the empty set does not round-trip: joining the empty list gives
the empty string, and splitting the empty string gives the singleton list
holding the empty string, not the empty list. -/
theorem C10_counterexample :
    commaSplit (commaJoin ([] : List String)) = [String.mk []] ∧
    commaSplit (commaJoin ([] : List String)) ≠ ([] : List String) := by decide

/-- C10 (amended): for every nonempty list of device-id strings none of
which contains a comma character, splitting the comma-joined string yields
exactly the original list.  (Persisted contributing sets are always
nonempty: the Confirmed path requires size at least the quorum
threshold.) -/
theorem C10_roundtrip_nonempty (l : List String) (hne : l ≠ [])
    (hno : ∀ s ∈ l, ',' ∉ s.data) : commaSplit (commaJoin l) = l := by
  unfold commaSplit commaJoin
  have h1 : (String.mk (joinComma (l.map String.data))).data
      = joinComma (l.map String.data) := rfl
  rw [h1, splitComma_joinComma]
  · rw [List.map_map]
    have : ∀ m : List String, List.map (String.mk ∘ String.data) m = m := by
      intro m
      induction m with
      | nil => rfl
      | cons a m ih => simp only [List.map_cons, ih]; rfl
    exact this l
  · simpa using hne
  · intro x hx
    obtain ⟨s, hs, rfl⟩ := List.mem_map.mp hx
    exact hno s hs

/-- C10 witness: a concrete three-element contributing set round-trips. -/
theorem C10_witness :
    commaSplit (commaJoin ["d1", "d2", "d3"]) = ["d1", "d2", "d3"] :=
  C10_roundtrip_nonempty ["d1", "d2", "d3"] (by decide) (by decide)

end SeizureApi
